import Mathlib

/-!
Verification of the patient CSV reconciliation and insertion pipeline.

The embedding follows the two scripts of the repository:
the reconciliation script (processCSV and its pure helpers isValidUUID,
convertGender, formatPhoneNumber) and the insertion runner (insertPatients).
JavaScript strings are modelled as Lean strings; the string utilities used by
the scripts (trim, toLowerCase, split on a character, startsWith) are embedded
as structurally recursive functions over the character list so that concrete
runs evaluate inside the kernel.
-/

namespace SyncData

/-- Characters removed by JavaScript String.prototype.trim (ASCII fragment). -/
def isJsSpace (c : Char) : Bool :=
  c = ' ' || c = '\t' || c = '\n' || c = '\r' || c = '\x0b' || c = '\x0c'

/-- JavaScript str.trim(): drop whitespace at both ends. -/
def jsTrim (s : String) : String :=
  String.mk (((s.data.dropWhile isJsSpace).reverse.dropWhile isJsSpace).reverse)

/-- JavaScript str.toLowerCase() restricted to ASCII letters. -/
def jsToLower (s : String) : String :=
  String.mk (s.data.map Char.toLower)

/-- Auxiliary splitter: accumulates the current field (reversed). -/
def splitOnCharAux (sep : Char) : List Char → List Char → List String
  | [], acc => [String.mk acc.reverse]
  | c :: rest, acc =>
    if c = sep then String.mk acc.reverse :: splitOnCharAux sep rest []
    else splitOnCharAux sep rest (c :: acc)

/-- JavaScript str.split(sep) for a single-character separator. -/
def splitOnChar (sep : Char) (s : String) : List String :=
  splitOnCharAux sep s.data []

/-- JavaScript str.startsWith(p). -/
def jsStartsWith (s p : String) : Bool :=
  p.data.isPrefixOf s.data

/-- Hexadecimal digit, either case (the regex is case-insensitive). -/
def isHexDigit (c : Char) : Bool :=
  c.isDigit || ('a' ≤ c && c ≤ 'f') || ('A' ≤ c && c ≤ 'F')

/-- isValidUUID from src/src/index.ts: canonical 8-4-4-4-12 form, version
nibble 1-5, variant nibble 8/9/a/b, case-insensitive. -/
def isValidUUID (s : String) : Bool :=
  match splitOnChar '-' s with
  | [g1, g2, g3, g4, g5] =>
    g1.data.length == 8 && g1.data.all isHexDigit &&
    g2.data.length == 4 && g2.data.all isHexDigit &&
    g3.data.length == 4 && g3.data.all isHexDigit &&
    (match g3.data with
     | v :: _ => '1' ≤ v && v ≤ '5'
     | [] => false) &&
    g4.data.length == 4 && g4.data.all isHexDigit &&
    (match g4.data with
     | c :: _ => c = '8' || c = '9' || c = 'a' || c = 'b' || c = 'A' || c = 'B'
     | [] => false) &&
    g5.data.length == 12 && g5.data.all isHexDigit
  | _ => false

/-- The Gender enum of the Prisma schema. -/
inductive Gender where
  | MALE
  | FEMALE
  | OTHER
deriving DecidableEq, Repr

/-- convertGender from src/src/index.ts. -/
def convertGender (gender : String) : Gender :=
  let normalized := jsTrim (jsToLower gender)
  if normalized = "m" ∨ normalized = "male" then Gender.MALE
  else if normalized = "f" ∨ normalized = "female" then Gender.FEMALE
  else Gender.OTHER

/-- formatPhoneNumber from src/src/index.ts. -/
def formatPhoneNumber (phone : String) : String :=
  let cleaned := jsTrim phone
  if jsStartsWith cleaned "+1" then cleaned
  else if jsStartsWith cleaned "1" then "+" ++ cleaned
  else "+1" ++ cleaned

/-! Date handling.  A JavaScript Date is its millisecond timestamp; an
Invalid Date is modelled as `none`.  `isoOfTime` renders the UTC timestamp the
way Date.prototype.toISOString does; `timeOfIso` embeds the ISO fragment of
the Date constructor's string parser (full date-time with Z, and the date-only
form used for CSV dob values). -/

/-- Civil date from days since the Unix epoch (proleptic Gregorian, UTC). -/
def daysToCivil (z0 : Int) : Int × Nat × Nat :=
  let z := z0 + 719468
  let era := z.fdiv 146097
  let doe := (z - era * 146097).toNat
  let yoe := (doe - doe / 1460 + doe / 36524 - doe / 146096) / 365
  let y := (yoe : Int) + era * 400
  let doy := doe - (365 * yoe + yoe / 4 - yoe / 100)
  let mp := (5 * doy + 2) / 153
  let d := doy - (153 * mp + 2) / 5 + 1
  let m := if mp < 10 then mp + 3 else mp - 9
  (if m ≤ 2 then y + 1 else y, m, d)

/-- Days since the Unix epoch from a civil date. -/
def daysFromCivil (y0 : Int) (m d : Nat) : Int :=
  let y := if m ≤ 2 then y0 - 1 else y0
  let era := y.fdiv 400
  let yoe := (y - era * 400).toNat
  let mp := if 2 < m then m - 3 else m + 9
  let doy := (153 * mp + 2) / 5 + d - 1
  let doe := yoe * 365 + yoe / 4 - yoe / 100 + doy
  era * 146097 + (doe : Int) - 719468

/-- Left-pad a number below 100 to two digits. -/
def pad2 (n : Nat) : String :=
  if n < 10 then "0" ++ toString n else toString n

/-- Left-pad a number below 1000 to three digits. -/
def pad3 (n : Nat) : String :=
  if n < 10 then "00" ++ toString n
  else if n < 100 then "0" ++ toString n
  else toString n

/-- Left-pad a number below 10000 to four digits. -/
def pad4 (n : Nat) : String :=
  if n < 10 then "000" ++ toString n
  else if n < 100 then "00" ++ toString n
  else if n < 1000 then "0" ++ toString n
  else toString n

/-- Date.prototype.toISOString on a millisecond timestamp (years 0-9999). -/
def isoOfTime (t : Int) : String :=
  let days := t.fdiv 86400000
  let ms := (t - days * 86400000).toNat
  let c := daysToCivil days
  pad4 c.1.toNat ++ "-" ++ pad2 c.2.1 ++ "-" ++ pad2 c.2.2 ++ "T" ++
    pad2 (ms / 3600000) ++ ":" ++ pad2 (ms / 60000 % 60) ++ ":" ++
    pad2 (ms / 1000 % 60) ++ "." ++ pad3 (ms % 1000) ++ "Z"

/-- Numeric value of a decimal digit character. -/
def digitVal (c : Char) : Option Nat :=
  if c.isDigit then some (c.toNat - 48) else none

/-- Two decimal digits. -/
def nat2 (a b : Char) : Option Nat := do
  let x ← digitVal a
  let y ← digitVal b
  pure (10 * x + y)

/-- Three decimal digits. -/
def nat3 (a b c : Char) : Option Nat := do
  let x ← nat2 a b
  let y ← digitVal c
  pure (10 * x + y)

/-- Four decimal digits. -/
def nat4 (a b c d : Char) : Option Nat := do
  let x ← nat3 a b c
  let y ← digitVal d
  pure (10 * x + y)

/-- New Date(string) on the ISO forms the pipeline produces: the full
date-time with milliseconds and Z, and the date-only form.  Anything else is
an Invalid Date (`none`). -/
def timeOfIso (s : String) : Option Int :=
  match s.data with
  | [y1, y2, y3, y4, '-', o1, o2, '-', d1, d2] => do
    let y ← nat4 y1 y2 y3 y4
    let mo ← nat2 o1 o2
    let d ← nat2 d1 d2
    if 1 ≤ mo ∧ mo ≤ 12 ∧ 1 ≤ d ∧ d ≤ 31 then
      pure (daysFromCivil (y : Int) mo d * 86400000)
    else none
  | [y1, y2, y3, y4, '-', o1, o2, '-', d1, d2, 'T',
     h1, h2, ':', n1, n2, ':', s1, s2, '.', f1, f2, f3, 'Z'] => do
    let y ← nat4 y1 y2 y3 y4
    let mo ← nat2 o1 o2
    let d ← nat2 d1 d2
    let h ← nat2 h1 h2
    let mi ← nat2 n1 n2
    let sec ← nat2 s1 s2
    let f ← nat3 f1 f2 f3
    if 1 ≤ mo ∧ mo ≤ 12 ∧ 1 ≤ d ∧ d ≤ 31 ∧ h ≤ 23 ∧ mi ≤ 59 ∧ sec ≤ 59 then
      pure (daysFromCivil (y : Int) mo d * 86400000 +
            ((h * 3600000 + mi * 60000 + sec * 1000 + f : Nat) : Int))
    else none
  | _ => none

/-- New Date(string) as used for the CSV dob column. -/
def jsParseDate (s : String) : Option Int := timeOfIso s

example : convertGender "M" = Gender.MALE := by decide
example : convertGender "Female" = Gender.FEMALE := by decide
example : convertGender "" = Gender.OTHER := by decide
example : convertGender "xyz" = Gender.OTHER := by decide
example : convertGender " male " = Gender.MALE := by decide
example : isValidUUID "550e8400-e29b-41d4-a716-446655440000" = true := by decide
example : isValidUUID "550e8400-e29b-91d4-a716-446655440000" = false := by decide
example : isValidUUID "" = false := by decide
example : formatPhoneNumber "5551234567" = "+15551234567" := by decide
example : formatPhoneNumber " 15551234567" = "+15551234567" := by decide
example : formatPhoneNumber "+15551234567" = "+15551234567" := by decide
example : splitOnChar ',' "a,,b" = ["a", "", "b"] := by decide
example : splitOnChar ',' "" = [""] := by decide
example : isoOfTime 0 = "1970-01-01T00:00:00.000Z" := by decide
example : timeOfIso "1970-01-01T00:00:00.000Z" = some 0 := by decide
example : jsParseDate "1990-05-15" = some 642729600000 := by decide
example : jsParseDate "not-a-date" = none := by decide
example : timeOfIso (isoOfTime 1700000000000) = some 1700000000000 := by decide

/-! The reconciliation script (processCSV in src/src/index.ts). -/

/-- The Patient row as assembled by processCSV (lines 208-222): the dob is the
JS Date parsed from the CSV column (`none` when Invalid), ssn and metadata are
always null, createdAt and updatedAt are the run clock. -/
structure Patient where
  id : String
  tenantId : String
  email : String
  firstName : String
  lastName : String
  dob : Option Int
  gender : Gender
  phoneNumber : String
  createdById : String
  ssn : Option String
  metadata : Option String
  createdAt : Option Int
  updatedAt : Option Int
deriving DecidableEq, Repr

/-- Run configuration: TENANT_ID and CREATED_BY_ID environment variables (the
empty string stands for an unset or empty variable, exactly the values that
fail the script's truthiness check) and the run clock used for new Date(). -/
structure Config where
  tenantId : String
  createdById : String
  now : Int
deriving DecidableEq, Repr

/-- The env-var guard of lines 187-193: `!tenantId || !createdById`. -/
def envMissing (cfg : Config) : Bool :=
  cfg.tenantId == "" || cfg.createdById == ""

/-- State threaded through the row loop of processCSV: annotated output lines
(in order, header excluded), the pending batch, the three counters, the lines
skipped with an insufficient-columns warning, and how many random UUIDs have
been drawn. -/
structure ScanState where
  output : List String
  batch : List Patient
  processed : Nat
  found : Nat
  notFound : Nat
  warnings : List String
  freshUsed : Nat
deriving DecidableEq, Repr

/-- The initial loop state. -/
def initState : ScanState := ⟨[], [], 0, 0, 0, [], 0⟩

/-- The email-to-id map built from the bulk query (JS Map semantics: a later
binding for the same key overrides an earlier one). -/
def lookupEmail (m : List (String × String)) (k : String) : Option String :=
  m.foldl (fun acc kv => if kv.1 = k then some kv.2 else acc) none

/-- Fields of a (trimmed) data line, split on a plain comma. -/
def rowColumns (line : String) : List String := splitOnChar ',' line

/-- Matching key of a line: `columns[6]?.trim().toLowerCase()`. -/
def rowEmail (line : String) : String :=
  jsToLower (jsTrim ((rowColumns line).getD 6 ""))

/-- The line's own external id: `columns[1]?.trim()`. -/
def rowExtId (line : String) : String :=
  jsTrim ((rowColumns line).getD 1 "")

/-- Identifier policy of lines 176-182: reuse the external id when it is a
non-empty valid UUID, otherwise use the freshly generated UUID. -/
def newPatientId (extId fresh : String) : String :=
  if extId ≠ "" ∧ isValidUUID extId then extId else fresh

/-- The record pushed onto patientsToCreate (lines 208-222). -/
def buildNewPatient (cfg : Config) (id email firstName lastName dobStr : String)
    (gender : Gender) (phone : String) : Patient :=
  { id := id
    tenantId := cfg.tenantId
    email := jsToLower email
    firstName := firstName
    lastName := lastName
    dob := jsParseDate dobStr
    gender := gender
    phoneNumber := phone
    createdById := cfg.createdById
    ssn := none
    metadata := none
    createdAt := some cfg.now
    updatedAt := some cfg.now }

/-- One iteration of the row loop of processCSV (lines 136-237).  The raw line
is trimmed; empty lines are skipped silently; lines with fewer than ten comma
fields are skipped with a warning; a line whose email is non-empty and present
in the map takes the Matched branch (lines 152-163); every other line takes
the NewPatient branch (lines 164-227), where the env-var failure is caught by
the catch of line 224, leaving the chosen UUID in the update column, while on
success the record is pushed and the update column is reset to empty. -/
def processLine (cfg : Config) (pmap : List (String × String))
    (uuids : Nat → String) (rawLine : String) (st : ScanState) : ScanState :=
  let line := jsTrim rawLine
  if line = "" then st
  else if (rowColumns line).length < 10 then
    { st with warnings := st.warnings ++ [line] }
  else
    let email := rowEmail line
    if email ≠ "" ∧ (lookupEmail pmap email).isSome then
      let resolvedId := (lookupEmail pmap email).getD ""
      let upd := if rowExtId line ≠ resolvedId then resolvedId else ""
      { st with
        found := st.found + 1
        processed := st.processed + 1
        output := st.output ++ [line ++ "," ++ upd] }
    else
      let chosenId := newPatientId (rowExtId line) (uuids st.freshUsed)
      let freshUsed' :=
        if rowExtId line ≠ "" ∧ isValidUUID (rowExtId line) then st.freshUsed
        else st.freshUsed + 1
      if envMissing cfg then
        { st with
          notFound := st.notFound + 1
          processed := st.processed + 1
          output := st.output ++ [line ++ "," ++ chosenId]
          freshUsed := freshUsed' }
      else
        { st with
          notFound := st.notFound + 1
          processed := st.processed + 1
          batch := st.batch ++
            [buildNewPatient cfg chosenId email
              (jsTrim ((rowColumns line).getD 2 ""))
              (jsTrim ((rowColumns line).getD 3 ""))
              (jsTrim ((rowColumns line).getD 4 ""))
              (convertGender (jsTrim ((rowColumns line).getD 5 "")))
              (formatPhoneNumber (jsTrim ((rowColumns line).getD 7 "")))]
          output := st.output ++ [line ++ ","]
          freshUsed := freshUsed' }

/-- The whole row loop over the data lines of the CSV. -/
def runScan (cfg : Config) (pmap : List (String × String))
    (uuids : Nat → String) (dataLines : List String) : ScanState :=
  dataLines.foldl (fun st l => processLine cfg pmap uuids l st) initState

/-! The insertion runner (insertPatients in src/unnamed/part_001). -/

/-- JSON values as seen by the runner after JSON.parse, with `undef` standing
for the JavaScript undefined produced by accessing a missing property. -/
inductive Json where
  | null
  | undef
  | str (s : String)
  | num (n : Int)
  | bool (b : Bool)
  | arr (items : List Json)
  | obj (fields : List (String × Json))

/-- Property lookup in an object's field list. -/
def jsLookup : List (String × Json) → String → Json
  | [], _ => Json.undef
  | (k, v) :: rest, key => if k = key then v else jsLookup rest key

/-- JavaScript property access obj.key (undefined off objects). -/
def jsField (j : Json) (k : String) : Json :=
  match j with
  | Json.obj fields => jsLookup fields k
  | _ => Json.undef

/-- JavaScript truthiness of a parsed JSON value. -/
def jsTruthy : Json → Bool
  | Json.null => false
  | Json.undef => false
  | Json.str s => s != ""
  | Json.num n => n != 0
  | Json.bool b => b
  | Json.arr _ => true
  | Json.obj _ => true

/-- The record's id when it is a string, as the runner's
`filter((id): id is string => ...)` and `p.id && ...` treat it. -/
def jsStrId (j : Json) : Option String :=
  match jsField j "id" with
  | Json.str s => some s
  | _ => none

/-- The creator id used as the user-lookup key. -/
def jsIdString : Json → String
  | Json.str s => s
  | _ => ""

/-- Store state visible to the runner: ids in the patient table and ids in
the user table. -/
structure StoreState where
  patientIds : List String
  userIds : List String
deriving DecidableEq, Repr

/-- Observable outcome of one runner invocation: the process exit code, the
ids actually created (in order), the duplicate ids reported by the pre-check,
and the patient table afterwards. -/
structure InsertOutcome where
  exitCode : Nat
  inserted : List String
  dupSkipped : List String
  finalPatients : List String
deriving DecidableEq, Repr

/-- The per-record insertion loop (lines 105-115): each create is attempted
individually; a create that violates the id uniqueness constraint is caught
and skipped, every other create succeeds and extends the table.  Returns the
created ids and the final table. -/
def doInserts : List String → List String → List String × List String
  | store, [] => ([], store)
  | store, i :: rest =>
    if i ∈ store then doInserts store rest
    else (i :: (doInserts (store ++ [i]) rest).1, (doInserts (store ++ [i]) rest).2)

/-- The creator existence check of lines 46-65, applied to the sample (first)
record only: it fires exactly when the record's createdById is truthy and no
user row carries that id. -/
def creatorRejected (users : List String) (p : Json) : Bool :=
  jsTruthy (jsField p "createdById") &&
    !(users.contains (jsIdString (jsField p "createdById")))

/-- The `patientIds` list of line 76: every batch element's id that is a
string (undefined ids are filtered out). -/
def runnerBatchIds (l : List Json) : List String :=
  l.filterMap jsStrId

/-- The duplicate pre-check result of lines 77-96: store rows whose id occurs
in the batch. -/
def dupIds (store : List String) (l : List Json) : List String :=
  store.filter (fun e => (runnerBatchIds l).contains e)

/-- The `patientsToInsert` filter of line 100, projected to ids: truthy ids
not already present in the store. -/
def insertCandidates (store : List String) (l : List Json) : List String :=
  (runnerBatchIds l).filter (fun i => i != "" && !((dupIds store l).contains i))

/-- InsertPatients over the loaded artifact.  `none` is a missing output.json
(exit 1 at line 30); `some (Except.error ())` is file content JSON.parse
rejects (the thrown error reaches the top-level catch, exit 1); `some
(Except.ok j)` is the parsed value.  A non-array or empty array returns
normally (exit 0, lines 39-42).  Otherwise the creator check runs on the
first record only, the duplicate pre-check drops ids already in the table,
and the surviving records are created one at a time. -/
def insertRun (st : StoreState) (artifact : Option (Except Unit Json)) :
    InsertOutcome :=
  match artifact with
  | none => ⟨1, [], [], st.patientIds⟩
  | some (Except.error _) => ⟨1, [], [], st.patientIds⟩
  | some (Except.ok j) =>
    match j with
    | Json.arr (p :: rest) =>
      if creatorRejected st.userIds p then ⟨1, [], [], st.patientIds⟩
      else
        ⟨0, (doInserts st.patientIds (insertCandidates st.patientIds (p :: rest))).1,
          dupIds st.patientIds (p :: rest),
          (doInserts st.patientIds (insertCandidates st.patientIds (p :: rest))).2⟩
    | _ => ⟨0, [], [], st.patientIds⟩

/-! Serialization of the pending batch (JSON.stringify in processCSV, line
240) and the runner's reconstruction of a record (JSON.parse plus the date
re-hydration map of lines 68-73). -/

/-- JSON.stringify of a Date field: toJSON yields the ISO string for a valid
date and null for an Invalid Date. -/
def serializeDate : Option Int → Json
  | none => Json.null
  | some t => Json.str (isoOfTime t)

/-- JSON.stringify of a nullable string field. -/
def serializeOptStr : Option String → Json
  | none => Json.null
  | some s => Json.str s

/-- The Prisma Gender enum value as the string JSON.stringify writes. -/
def genderToString : Gender → String
  | Gender.MALE => "MALE"
  | Gender.FEMALE => "FEMALE"
  | Gender.OTHER => "OTHER"

/-- The enum value a gender string stands for. -/
def genderOfString : String → Option Gender
  | "MALE" => some Gender.MALE
  | "FEMALE" => some Gender.FEMALE
  | "OTHER" => some Gender.OTHER
  | _ => none

/-- JSON.stringify of one pending Patient record, field for field in the
object-literal order of lines 208-222. -/
def serializePatient (p : Patient) : Json :=
  Json.obj [
    ("id", Json.str p.id),
    ("tenantId", Json.str p.tenantId),
    ("email", Json.str p.email),
    ("firstName", Json.str p.firstName),
    ("lastName", Json.str p.lastName),
    ("dob", serializeDate p.dob),
    ("gender", Json.str (genderToString p.gender)),
    ("phoneNumber", Json.str p.phoneNumber),
    ("createdById", Json.str p.createdById),
    ("ssn", serializeOptStr p.ssn),
    ("metadata", serializeOptStr p.metadata),
    ("createdAt", serializeDate p.createdAt),
    ("updatedAt", serializeDate p.updatedAt)]

/-- New Date(v) on a parsed JSON value: a string goes through the ISO parser,
null coerces to the epoch, undefined gives an Invalid Date, a number is the
timestamp itself. -/
def jsNewDate : Json → Option Int
  | Json.str s => timeOfIso s
  | Json.null => some 0
  | Json.undef => none
  | Json.num n => some n
  | Json.bool b => some (if b then 1 else 0)
  | Json.arr _ => none
  | Json.obj _ => none

/-- The v ? new Date(v) : new Date() pattern used for createdAt/updatedAt. -/
def jsNewDateOr (now : Int) (j : Json) : Option Int :=
  if jsTruthy j then jsNewDate j else some now

/-- A JSON value read back as a string field. -/
def decodeStr : Json → Option String
  | Json.str s => some s
  | _ => none

/-- A JSON value read back as a nullable string field. -/
def decodeOptStr : Json → Option (Option String)
  | Json.null => some none
  | Json.str s => some (some s)
  | _ => none

/-- The record the runner hands to prisma.patient.create for one parsed JSON
element: all fields are spread from the parsed object, with dob, createdAt
and updatedAt re-hydrated through new Date (lines 68-73).  Fields that are
not of the column's type are rejected (`none`). -/
def runnerDecode (now : Int) (j : Json) : Option Patient := do
  let id ← decodeStr (jsField j "id")
  let tenantId ← decodeStr (jsField j "tenantId")
  let email ← decodeStr (jsField j "email")
  let firstName ← decodeStr (jsField j "firstName")
  let lastName ← decodeStr (jsField j "lastName")
  let gender ← genderOfString (← decodeStr (jsField j "gender"))
  let phoneNumber ← decodeStr (jsField j "phoneNumber")
  let createdById ← decodeStr (jsField j "createdById")
  let ssn ← decodeOptStr (jsField j "ssn")
  let metadata ← decodeOptStr (jsField j "metadata")
  some {
    id := id
    tenantId := tenantId
    email := email
    firstName := firstName
    lastName := lastName
    dob := jsNewDate (jsField j "dob")
    gender := gender
    phoneNumber := phoneNumber
    createdById := createdById
    ssn := ssn
    metadata := metadata
    createdAt := jsNewDateOr now (jsField j "createdAt")
    updatedAt := jsNewDateOr now (jsField j "updatedAt") }

/-! Helper lemmas. -/

/-- A string passing the UUID regex is non-empty. -/
theorem isValidUUID_ne_empty {s : String} (h : isValidUUID s = true) : s ≠ "" := by
  intro he
  subst he
  exact absurd h (by decide)

/-- A no-match condition in the disjunctive form implies the negation of the
Matched guard of processLine. -/
theorem noMatch_guard {pmap : List (String × String)} {email : String}
    (h : email = "" ∨ lookupEmail pmap email = none) :
    ¬ (email ≠ "" ∧ (lookupEmail pmap email).isSome) := by
  rintro ⟨hne, hsome⟩
  cases h with
  | inl h => exact hne h
  | inr h => rw [h] at hsome; exact Bool.noConfusion hsome

/-- Reduction of processLine on the NewPatient branch when the required
environment variables are present: the record is pushed and the update column
written out is empty. -/
theorem processLine_new_ok (cfg : Config) (pmap : List (String × String))
    (uuids : Nat → String) (rawLine : String) (st : ScanState)
    (h1 : jsTrim rawLine ≠ "")
    (h2 : ¬ (rowColumns (jsTrim rawLine)).length < 10)
    (h3 : rowEmail (jsTrim rawLine) = "" ∨
      lookupEmail pmap (rowEmail (jsTrim rawLine)) = none)
    (h4 : envMissing cfg = false) :
    processLine cfg pmap uuids rawLine st =
      { st with
        notFound := st.notFound + 1
        processed := st.processed + 1
        batch := st.batch ++
          [buildNewPatient cfg
            (newPatientId (rowExtId (jsTrim rawLine)) (uuids st.freshUsed))
            (rowEmail (jsTrim rawLine))
            (jsTrim ((rowColumns (jsTrim rawLine)).getD 2 ""))
            (jsTrim ((rowColumns (jsTrim rawLine)).getD 3 ""))
            (jsTrim ((rowColumns (jsTrim rawLine)).getD 4 ""))
            (convertGender (jsTrim ((rowColumns (jsTrim rawLine)).getD 5 "")))
            (formatPhoneNumber (jsTrim ((rowColumns (jsTrim rawLine)).getD 7 "")))]
        output := st.output ++ [jsTrim rawLine ++ ","]
        freshUsed :=
          if rowExtId (jsTrim rawLine) ≠ "" ∧ isValidUUID (rowExtId (jsTrim rawLine))
          then st.freshUsed else st.freshUsed + 1 } := by
  simp only [processLine]
  rw [if_neg h1, if_neg h2, if_neg (noMatch_guard h3), h4]
  rfl

/-- Reduction of processLine on the NewPatient branch when a required
environment variable is missing: the throw of line 192 is caught at line 224,
so the record is not pushed, the loop continues, and the chosen UUID is left
in the update column of the emitted line. -/
theorem processLine_new_envMissing (cfg : Config) (pmap : List (String × String))
    (uuids : Nat → String) (rawLine : String) (st : ScanState)
    (h1 : jsTrim rawLine ≠ "")
    (h2 : ¬ (rowColumns (jsTrim rawLine)).length < 10)
    (h3 : rowEmail (jsTrim rawLine) = "" ∨
      lookupEmail pmap (rowEmail (jsTrim rawLine)) = none)
    (h4 : envMissing cfg = true) :
    processLine cfg pmap uuids rawLine st =
      { st with
        notFound := st.notFound + 1
        processed := st.processed + 1
        output := st.output ++
          [jsTrim rawLine ++ "," ++
            newPatientId (rowExtId (jsTrim rawLine)) (uuids st.freshUsed)]
        freshUsed :=
          if rowExtId (jsTrim rawLine) ≠ "" ∧ isValidUUID (rowExtId (jsTrim rawLine))
          then st.freshUsed else st.freshUsed + 1 } := by
  simp only [processLine]
  rw [if_neg h1, if_neg h2, if_neg (noMatch_guard h3), h4]
  rfl

/-- When the chosen identifier is the reused-or-generated UUID and the fresh
UUID is itself valid, the chosen identifier is never the empty string. -/
theorem newPatientId_ne_empty {extId fresh : String}
    (hfresh : isValidUUID fresh = true) :
    newPatientId extId fresh ≠ "" := by
  unfold newPatientId
  by_cases h : extId ≠ "" ∧ isValidUUID extId
  · rw [if_pos h]; exact h.1
  · rw [if_neg h]; exact isValidUUID_ne_empty hfresh

/-! Claim theorems. -/

/-- C8: gender classification is a total function: for every input string,
after trimming and lower-casing, "m" or "male" maps to MALE, "f" or "female"
maps to FEMALE, and every other input (including the empty string) maps to
OTHER, with no error path; in particular the spec's four vectors hold. -/
theorem claim_c8_gender_total :
    (∀ s : String,
      convertGender s =
        (if jsTrim (jsToLower s) = "m" ∨ jsTrim (jsToLower s) = "male" then
          Gender.MALE
         else if jsTrim (jsToLower s) = "f" ∨ jsTrim (jsToLower s) = "female" then
          Gender.FEMALE
         else Gender.OTHER)) ∧
    convertGender "M" = Gender.MALE ∧
    convertGender "Female" = Gender.FEMALE ∧
    convertGender "" = Gender.OTHER ∧
    convertGender "xyz" = Gender.OTHER :=
  ⟨fun _ => rfl, by decide, by decide, by decide, by decide⟩

/-- C9: a non-empty data line that splits into fewer than ten comma fields is
skipped with a diagnostic: the state is unchanged except for the warning, so
the line reaches neither the annotated output, nor the pending batch, nor any
counter, and the run does not fail. -/
theorem claim_c9_short_row_skipped (cfg : Config) (pmap : List (String × String))
    (uuids : Nat → String) (rawLine : String) (st : ScanState)
    (h1 : jsTrim rawLine ≠ "")
    (h2 : (rowColumns (jsTrim rawLine)).length < 10) :
    processLine cfg pmap uuids rawLine st =
      { st with warnings := st.warnings ++ [jsTrim rawLine] } := by
  simp only [processLine]
  rw [if_neg h1, if_pos h2]

/-- Witness for C9 at a concrete three-column line. -/
theorem claim_c9_witness :
    processLine ⟨"tenant-1", "creator-1", 0⟩ [] (fun _ => "u") "p3,a,b" initState =
      { initState with warnings := ["p3,a,b"] } := by
  rw [claim_c9_short_row_skipped _ _ _ _ _ (by decide) (by decide)]
  decide

/-- C4: a parsed row whose lower-cased email resolves in the email-to-id map
takes the Matched outcome: the found counter advances, the batch is untouched,
one annotated line is emitted, and its update-column is empty exactly when the
row's own external id already equals the resolved id, otherwise it is the
resolved id itself. -/
theorem claim_c4_matched_update (cfg : Config) (pmap : List (String × String))
    (uuids : Nat → String) (rawLine : String) (st : ScanState) (rid : String)
    (h1 : jsTrim rawLine ≠ "")
    (h2 : ¬ (rowColumns (jsTrim rawLine)).length < 10)
    (h3 : rowEmail (jsTrim rawLine) ≠ "")
    (h4 : lookupEmail pmap (rowEmail (jsTrim rawLine)) = some rid)
    (h5 : rid ≠ "") :
    processLine cfg pmap uuids rawLine st =
      { st with
        found := st.found + 1
        processed := st.processed + 1
        output := st.output ++
          [jsTrim rawLine ++ "," ++
            (if rowExtId (jsTrim rawLine) = rid then "" else rid)] } ∧
    ((if rowExtId (jsTrim rawLine) = rid then "" else rid) = "" ↔
      rowExtId (jsTrim rawLine) = rid) := by
  constructor
  · simp only [processLine]
    rw [if_neg h1, if_neg h2, if_pos ⟨h3, by rw [h4]; rfl⟩, h4]
    by_cases he : rowExtId (jsTrim rawLine) = rid
    · rw [if_neg (by simpa using he), if_pos he]
    · rw [if_pos (by simpa using he), if_neg he]
      rfl
  · by_cases he : rowExtId (jsTrim rawLine) = rid
    · simp [he]
    · simp [he, h5]

/-- Witness for C4: one drifted row (external id differs from the resolved
id, update-column set) applied at a concrete line and map. -/
theorem claim_c4_witness :
    processLine ⟨"tenant-1", "creator-1", 0⟩ [("a@b.com", "rid-1")] (fun _ => "u")
        "p2,ext2,Jane,Roe,1991-06-16,F,A@B.com,15551234567,x,y" initState =
      { initState with
        found := 1
        processed := 1
        output := ["p2,ext2,Jane,Roe,1991-06-16,F,A@B.com,15551234567,x,y,rid-1"] } := by
  rw [(claim_c4_matched_update _ _ _ _ _ "rid-1" (by decide) (by decide) (by decide)
    (by decide) (by decide)).1]
  decide

/-- C5: on the NewPatient branch (no email match, configuration present),
exactly one record is appended, and its identifier is the row's own external
id precisely when that id is a syntactically valid UUID; otherwise it is the
freshly generated UUID (assumed valid, as randomUUID guarantees). -/
theorem claim_c5_identifier_policy (cfg : Config)
    (pmap : List (String × String)) (uuids : Nat → String) (rawLine : String)
    (st : ScanState)
    (h1 : jsTrim rawLine ≠ "")
    (h2 : ¬ (rowColumns (jsTrim rawLine)).length < 10)
    (h3 : rowEmail (jsTrim rawLine) = "" ∨
      lookupEmail pmap (rowEmail (jsTrim rawLine)) = none)
    (h4 : envMissing cfg = false)
    (h5 : isValidUUID (uuids st.freshUsed) = true) :
    (processLine cfg pmap uuids rawLine st).batch =
      st.batch ++
        [buildNewPatient cfg
          (newPatientId (rowExtId (jsTrim rawLine)) (uuids st.freshUsed))
          (rowEmail (jsTrim rawLine))
          (jsTrim ((rowColumns (jsTrim rawLine)).getD 2 ""))
          (jsTrim ((rowColumns (jsTrim rawLine)).getD 3 ""))
          (jsTrim ((rowColumns (jsTrim rawLine)).getD 4 ""))
          (convertGender (jsTrim ((rowColumns (jsTrim rawLine)).getD 5 "")))
          (formatPhoneNumber (jsTrim ((rowColumns (jsTrim rawLine)).getD 7 "")))] ∧
    (newPatientId (rowExtId (jsTrim rawLine)) (uuids st.freshUsed) =
        rowExtId (jsTrim rawLine) ↔
      isValidUUID (rowExtId (jsTrim rawLine)) = true) ∧
    (isValidUUID (rowExtId (jsTrim rawLine)) = false →
      newPatientId (rowExtId (jsTrim rawLine)) (uuids st.freshUsed) =
        uuids st.freshUsed) := by
  refine ⟨by rw [processLine_new_ok cfg pmap uuids rawLine st h1 h2 h3 h4], ?_, ?_⟩
  · constructor
    · intro heq
      by_cases hv : isValidUUID (rowExtId (jsTrim rawLine)) = true
      · exact hv
      · exfalso
        have hfr : newPatientId (rowExtId (jsTrim rawLine)) (uuids st.freshUsed) =
            uuids st.freshUsed := by
          unfold newPatientId
          rw [if_neg (by intro hc; exact hv hc.2)]
        rw [hfr] at heq
        rw [heq] at h5
        exact hv h5
    · intro hv
      unfold newPatientId
      rw [if_pos ⟨isValidUUID_ne_empty hv, hv⟩]
  · intro hv
    unfold newPatientId
    rw [if_neg (by intro hc; rw [hc.2] at hv; exact Bool.noConfusion hv)]

/-- Witness for C5 at two concrete rows: one whose external id is a valid
UUID (reused) and one whose external id is not (fresh UUID used). -/
theorem claim_c5_witness :
    ((processLine ⟨"tenant-1", "creator-1", 0⟩ []
        (fun _ => "123e4567-e89b-42d3-a456-426614174000")
        "p1,550e8400-e29b-41d4-a716-446655440000,John,Doe,1990-05-15,M,,5551234567,x,y"
        initState).batch.map Patient.id =
      ["550e8400-e29b-41d4-a716-446655440000"]) ∧
    ((processLine ⟨"tenant-1", "creator-1", 0⟩ []
        (fun _ => "123e4567-e89b-42d3-a456-426614174000")
        "p2,ext2,Jane,Roe,1991-06-16,F,,15551234567,x,y"
        initState).batch.map Patient.id =
      ["123e4567-e89b-42d3-a456-426614174000"]) := by
  constructor
  · rw [(claim_c5_identifier_policy _ _ _ _ _ (by decide) (by decide)
      (Or.inl (by decide)) (by decide) (by decide)).1]
    decide
  · rw [(claim_c5_identifier_policy _ _ _ _ _ (by decide) (by decide)
      (Or.inl (by decide)) (by decide) (by decide)).1]
    decide

/-- C2 counterexample: with TENANT_ID missing, building the NewPatientRecord
for a valid-UUID row fails; the row is not added to the batch and processing
continues, but the emitted annotated line carries the chosen UUID in its
update-column, not the empty value the claim asserts. -/
theorem claim_c2_counterexample :
    ((processLine ⟨"", "creator-1", 0⟩ [] (fun _ => "u")
        "p1,550e8400-e29b-41d4-a716-446655440000,John,Doe,1990-05-15,M,,5551234567,x,y"
        initState).batch = []) ∧
    ((processLine ⟨"", "creator-1", 0⟩ [] (fun _ => "u")
        "p1,550e8400-e29b-41d4-a716-446655440000,John,Doe,1990-05-15,M,,5551234567,x,y"
        initState).output =
      ["p1,550e8400-e29b-41d4-a716-446655440000,John,Doe,1990-05-15,M,,5551234567,x,y,550e8400-e29b-41d4-a716-446655440000"]) ∧
    ((processLine ⟨"", "creator-1", 0⟩ [] (fun _ => "u")
        "p1,550e8400-e29b-41d4-a716-446655440000,John,Doe,1990-05-15,M,,5551234567,x,y"
        initState).output ≠
      ["p1,550e8400-e29b-41d4-a716-446655440000,John,Doe,1990-05-15,M,,5551234567,x,y,"]) := by
  decide

/-- C2 amended: when building the NewPatientRecord fails (missing tenant or
creator configuration), the failure is caught, the row is not added to the
pending batch, processing continues, and the row still receives an annotated
output line; but that line's update-column holds the reused-or-generated
UUID, which is non-empty, rather than being empty. -/
theorem claim_c2_amended (cfg : Config) (pmap : List (String × String))
    (uuids : Nat → String) (rawLine : String) (st : ScanState)
    (h1 : jsTrim rawLine ≠ "")
    (h2 : ¬ (rowColumns (jsTrim rawLine)).length < 10)
    (h3 : rowEmail (jsTrim rawLine) = "" ∨
      lookupEmail pmap (rowEmail (jsTrim rawLine)) = none)
    (h4 : envMissing cfg = true)
    (h5 : isValidUUID (uuids st.freshUsed) = true) :
    processLine cfg pmap uuids rawLine st =
      { st with
        notFound := st.notFound + 1
        processed := st.processed + 1
        output := st.output ++
          [jsTrim rawLine ++ "," ++
            newPatientId (rowExtId (jsTrim rawLine)) (uuids st.freshUsed)]
        freshUsed :=
          if rowExtId (jsTrim rawLine) ≠ "" ∧ isValidUUID (rowExtId (jsTrim rawLine))
          then st.freshUsed else st.freshUsed + 1 } ∧
    newPatientId (rowExtId (jsTrim rawLine)) (uuids st.freshUsed) ≠ "" :=
  ⟨processLine_new_envMissing cfg pmap uuids rawLine st h1 h2 h3 h4,
   newPatientId_ne_empty h5⟩

/-- Witness for the amended C2 at a concrete row with missing TENANT_ID. -/
theorem claim_c2_amended_witness :
    processLine ⟨"", "creator-1", 0⟩ []
        (fun _ => "123e4567-e89b-42d3-a456-426614174000")
        "p2,ext2,Jane,Roe,1991-06-16,F,,15551234567,x,y" initState =
      { initState with
        notFound := 1
        processed := 1
        output := ["p2,ext2,Jane,Roe,1991-06-16,F,,15551234567,x,y,123e4567-e89b-42d3-a456-426614174000"]
        freshUsed := 1 } := by
  rw [(claim_c2_amended _ _ _ _ _ (by decide) (by decide) (Or.inl (by decide))
    (by decide) (by decide)).1]
  decide

/-- C1: with TENANT_ID absent, a run over two NewPatient rows does not abort:
both rows are processed and annotated (the run terminates normally with two
output lines) while no new-patient record is ever produced.  This exhibits
the divergence between the code (per-row catch swallows the missing-env
error) and the claimed fatal whole-run abort. -/
theorem claim_c1_env_missing_run_continues :
    ((runScan ⟨"", "creator-1", 0⟩ [] (fun _ => "123e4567-e89b-42d3-a456-426614174000")
        ["p1,550e8400-e29b-41d4-a716-446655440000,John,Doe,1990-05-15,M,,5551234567,x,y",
         "p2,ext2,Jane,Roe,1991-06-16,F,,15551234567,x,y"]).processed = 2) ∧
    ((runScan ⟨"", "creator-1", 0⟩ [] (fun _ => "123e4567-e89b-42d3-a456-426614174000")
        ["p1,550e8400-e29b-41d4-a716-446655440000,John,Doe,1990-05-15,M,,5551234567,x,y",
         "p2,ext2,Jane,Roe,1991-06-16,F,,15551234567,x,y"]).output.length = 2) ∧
    ((runScan ⟨"", "creator-1", 0⟩ [] (fun _ => "123e4567-e89b-42d3-a456-426614174000")
        ["p1,550e8400-e29b-41d4-a716-446655440000,John,Doe,1990-05-15,M,,5551234567,x,y",
         "p2,ext2,Jane,Roe,1991-06-16,F,,15551234567,x,y"]).batch = []) := by
  decide

/-- C3 counterexample: an artifact holding an empty JSON array terminates the
Insertion Runner with exit code zero (the early return of lines 39-42), not
with the non-zero termination the claim asserts for an empty artifact. -/
theorem claim_c3_counterexample :
    (insertRun ⟨[], []⟩ (some (Except.ok (Json.arr [])))).exitCode = 0 := by
  decide

/-- C3 amended: a missing artifact and malformed JSON text abort the runner
with exit code one and no insertion attempted; an artifact parsing to an
empty array also attempts no insertion and is diagnosed, but the runner then
terminates normally with exit code zero. -/
theorem claim_c3_amended (st : StoreState) :
    insertRun st none = ⟨1, [], [], st.patientIds⟩ ∧
    insertRun st (some (Except.error ())) = ⟨1, [], [], st.patientIds⟩ ∧
    insertRun st (some (Except.ok (Json.arr []))) = ⟨0, [], [], st.patientIds⟩ :=
  ⟨rfl, rfl, rfl⟩

/-! Lemmas about the per-record insertion loop, used for the idempotence
claim. -/

/-- The insertion loop only grows the patient table. -/
theorem doInserts_store_sub (ids store : List String) :
    store ⊆ (doInserts store ids).2 := by
  induction ids generalizing store with
  | nil => exact fun a ha => ha
  | cons j rest ih =>
    simp only [doInserts]
    by_cases hj : j ∈ store
    · rw [if_pos hj]; exact ih store
    · rw [if_neg hj]
      exact fun a ha => ih (store ++ [j]) (List.mem_append_left _ ha)

/-- After the loop, every id fed to it is present in the table: either it was
already there (the create failed on the uniqueness constraint and was caught)
or its create succeeded. -/
theorem doInserts_mem_final {i : String} (ids store : List String)
    (h : i ∈ ids) : i ∈ (doInserts store ids).2 := by
  induction ids generalizing store with
  | nil => cases h
  | cons j rest ih =>
    simp only [doInserts]
    by_cases hj : j ∈ store
    · rw [if_pos hj]
      rcases List.mem_cons.mp h with hij | hir
      · exact doInserts_store_sub rest store (hij ▸ hj)
      · exact ih store hir
    · rw [if_neg hj]
      rcases List.mem_cons.mp h with hij | hir
      · exact doInserts_store_sub rest (store ++ [j])
          (hij ▸ List.mem_append_right store (List.mem_singleton.mpr rfl))
      · exact ih (store ++ [j]) hir

/-- Every id the loop actually created is in the final table. -/
theorem doInserts_inserted_mem_final {i : String} (ids store : List String)
    (h : i ∈ (doInserts store ids).1) : i ∈ (doInserts store ids).2 := by
  induction ids generalizing store with
  | nil => cases h
  | cons j rest ih =>
    simp only [doInserts] at h ⊢
    by_cases hj : j ∈ store
    · rw [if_pos hj] at h ⊢; exact ih store h
    · rw [if_neg hj] at h ⊢
      rcases List.mem_cons.mp h with hij | hir
      · exact doInserts_store_sub rest (store ++ [j])
          (hij ▸ List.mem_append_right store (List.mem_singleton.mpr rfl))
      · exact ih (store ++ [j]) hir

/-- The created ids all come from the input list. -/
theorem doInserts_inserted_sub (ids store : List String) :
    (doInserts store ids).1 ⊆ ids := by
  induction ids generalizing store with
  | nil => exact fun a ha => ha
  | cons j rest ih =>
    simp only [doInserts]
    by_cases hj : j ∈ store
    · rw [if_pos hj]
      exact fun a ha => List.mem_cons_of_mem j (ih store ha)
    · rw [if_neg hj]
      intro a ha
      rcases List.mem_cons.mp ha with haj | har
      · exact haj ▸ List.mem_cons_self a rest
      · exact List.mem_cons_of_mem j (ih (store ++ [j]) har)

/-- Every truthy batch id is in the patient table once a run finished without
aborting: it was either skipped as a duplicate or created. -/
theorem batchId_mem_final {i : String} (store : List String) (l : List Json)
    (hmem : i ∈ runnerBatchIds l) (hne : i ≠ "") :
    i ∈ (doInserts store (insertCandidates store l)).2 := by
  by_cases hst : i ∈ store
  · exact doInserts_store_sub _ store hst
  · apply doInserts_mem_final
    apply List.mem_filter.mpr
    refine ⟨hmem, ?_⟩
    have hdup : i ∉ dupIds store l := by
      intro hd
      exact hst (List.mem_filter.mp hd).1
    simp [hne, hdup]

/-- If every truthy batch id is already reported as a duplicate, nothing is
left to insert. -/
theorem insertCandidates_eq_nil {store : List String} {l : List Json}
    (h : ∀ i ∈ runnerBatchIds l, i ≠ "" → i ∈ dupIds store l) :
    insertCandidates store l = [] := by
  unfold insertCandidates
  rw [List.filter_eq_nil_iff]
  intro i hi hb
  rw [Bool.and_eq_true] at hb
  have hne : i ≠ "" := by simpa using hb.1
  have hnot : i ∉ dupIds store l := by simpa using hb.2
  exact hnot (h i hi hne)

/-- C6: running the Insertion Runner a second time over the same artifact,
with the patient table as the first run left it and no other store change,
creates nothing: the second run's insert list is empty and every id the first
run created is reported by the second run's duplicate pre-check. -/
theorem claim_c6_idempotent (st : StoreState)
    (artifact : Option (Except Unit Json)) :
    (insertRun ⟨(insertRun st artifact).finalPatients, st.userIds⟩ artifact).inserted
        = [] ∧
    ∀ i, i ∈ (insertRun st artifact).inserted →
      i ∈ (insertRun ⟨(insertRun st artifact).finalPatients, st.userIds⟩
            artifact).dupSkipped := by
  match artifact with
  | none => exact ⟨rfl, fun i h => absurd h (List.not_mem_nil i)⟩
  | some (Except.error ()) => exact ⟨rfl, fun i h => absurd h (List.not_mem_nil i)⟩
  | some (Except.ok j) =>
    match j with
    | Json.null => exact ⟨rfl, fun i h => absurd h (List.not_mem_nil i)⟩
    | Json.undef => exact ⟨rfl, fun i h => absurd h (List.not_mem_nil i)⟩
    | Json.str _ => exact ⟨rfl, fun i h => absurd h (List.not_mem_nil i)⟩
    | Json.num _ => exact ⟨rfl, fun i h => absurd h (List.not_mem_nil i)⟩
    | Json.bool _ => exact ⟨rfl, fun i h => absurd h (List.not_mem_nil i)⟩
    | Json.obj _ => exact ⟨rfl, fun i h => absurd h (List.not_mem_nil i)⟩
    | Json.arr [] => exact ⟨rfl, fun i h => absurd h (List.not_mem_nil i)⟩
    | Json.arr (p :: rest) =>
      by_cases hc : creatorRejected st.userIds p = true
      · simp [insertRun, hc]
      · have h1 : insertRun st (some (Except.ok (Json.arr (p :: rest)))) =
            ⟨0, (doInserts st.patientIds (insertCandidates st.patientIds (p :: rest))).1,
             dupIds st.patientIds (p :: rest),
             (doInserts st.patientIds (insertCandidates st.patientIds (p :: rest))).2⟩ := by
          simp only [insertRun]
          rw [if_neg hc]
        have h2 : insertRun
            ⟨(doInserts st.patientIds (insertCandidates st.patientIds (p :: rest))).2,
             st.userIds⟩ (some (Except.ok (Json.arr (p :: rest)))) =
            ⟨0,
             (doInserts
               (doInserts st.patientIds (insertCandidates st.patientIds (p :: rest))).2
               (insertCandidates
                 (doInserts st.patientIds (insertCandidates st.patientIds (p :: rest))).2
                 (p :: rest))).1,
             dupIds
               (doInserts st.patientIds (insertCandidates st.patientIds (p :: rest))).2
               (p :: rest),
             (doInserts
               (doInserts st.patientIds (insertCandidates st.patientIds (p :: rest))).2
               (insertCandidates
                 (doInserts st.patientIds (insertCandidates st.patientIds (p :: rest))).2
                 (p :: rest))).2⟩ := by
          simp only [insertRun]
          rw [if_neg hc]
        have hfin :
            insertCandidates
              (doInserts st.patientIds (insertCandidates st.patientIds (p :: rest))).2
              (p :: rest) = [] :=
          insertCandidates_eq_nil (fun i hi hne =>
            List.mem_filter.mpr
              ⟨batchId_mem_final st.patientIds (p :: rest) hi hne, by simpa using hi⟩)
        rw [h1]
        dsimp only
        rw [h2, hfin]
        constructor
        · rfl
        · intro i hins
          dsimp only at hins ⊢
          have hfinmem : i ∈
              (doInserts st.patientIds (insertCandidates st.patientIds (p :: rest))).2 :=
            doInserts_inserted_mem_final _ _ hins
          have hcand : i ∈ insertCandidates st.patientIds (p :: rest) :=
            doInserts_inserted_sub _ _ hins
          have hbatch : i ∈ runnerBatchIds (p :: rest) := by
            have := by simpa [insertCandidates] using hcand
            exact this.1
          exact List.mem_filter.mpr ⟨hfinmem, by simpa using hbatch⟩

/-- Witness for C6: a one-record batch against an empty patient table; the
second run inserts nothing and reports the first run's created id as a
duplicate. -/
theorem claim_c6_witness :
    (InsertOutcome.inserted (insertRun
        ⟨InsertOutcome.finalPatients (insertRun ⟨[], ["u1"]⟩
            (some (Except.ok (Json.arr
              [Json.obj [("id", Json.str "a"), ("createdById", Json.str "u1")]])))),
          ["u1"]⟩
        (some (Except.ok (Json.arr
          [Json.obj [("id", Json.str "a"), ("createdById", Json.str "u1")]])))) = []) ∧
    "a" ∈ InsertOutcome.dupSkipped (insertRun
        ⟨InsertOutcome.finalPatients (insertRun ⟨[], ["u1"]⟩
            (some (Except.ok (Json.arr
              [Json.obj [("id", Json.str "a"), ("createdById", Json.str "u1")]])))),
          ["u1"]⟩
        (some (Except.ok (Json.arr
          [Json.obj [("id", Json.str "a"), ("createdById", Json.str "u1")]])))) :=
  ⟨(claim_c6_idempotent ⟨[], ["u1"]⟩
      (some (Except.ok (Json.arr
        [Json.obj [("id", Json.str "a"), ("createdById", Json.str "u1")]])))).1,
   (claim_c6_idempotent ⟨[], ["u1"]⟩
      (some (Except.ok (Json.arr
        [Json.obj [("id", Json.str "a"), ("createdById", Json.str "u1")]])))).2
     "a" (by decide)⟩

/-- Two lists on which a partial projection agrees pointwise have the same
filterMap under it. -/
theorem filterMap_eq_of_map_eq {α β : Type} (f : α → Option β) :
    ∀ (l1 l2 : List α), l1.map f = l2.map f → l1.filterMap f = l2.filterMap f := by
  intro l1
  induction l1 with
  | nil =>
    intro l2 h
    rw [List.map_eq_nil_iff.mp h.symm]
  | cons a t ih =>
    intro l2 h
    cases l2 with
    | nil => exact absurd h (by simp)
    | cons b t2 =>
      rw [List.map_cons, List.map_cons] at h
      have hab : f a = f b := (List.cons.injEq _ _ _ _ ▸ h).1
      have ht : t.map f = t2.map f := (List.cons.injEq _ _ _ _ ▸ h).2
      rw [List.filterMap_cons, List.filterMap_cons, hab, ih t2 ht]

/-- C10: the runner's creator-id existence check looks at the first record
only.  When the first record's createdById is absent (or otherwise falsy) the
check is skipped outright: the run's outcome is the same for any user table,
and the remaining records' createdById values are never consulted (the
outcome depends on them only through their id fields). -/
theorem claim_c10_creator_check_first_only (pids users users' : List String)
    (p : Json) (rest rest' : List Json)
    (hids : rest.map jsStrId = rest'.map jsStrId)
    (hfalsy : jsTruthy (jsField p "createdById") = false) :
    insertRun ⟨pids, users⟩ (some (Except.ok (Json.arr (p :: rest)))) =
      insertRun ⟨pids, users'⟩ (some (Except.ok (Json.arr (p :: rest')))) := by
  have hb : runnerBatchIds (p :: rest) = runnerBatchIds (p :: rest') := by
    unfold runnerBatchIds
    apply filterMap_eq_of_map_eq
    rw [List.map_cons, List.map_cons, hids]
  have hcr : ∀ us : List String, creatorRejected us p = false := by
    intro us
    unfold creatorRejected
    rw [hfalsy, Bool.false_and]
  have hd : dupIds pids (p :: rest) = dupIds pids (p :: rest') := by
    unfold dupIds
    rw [hb]
  have hc2 : insertCandidates pids (p :: rest) = insertCandidates pids (p :: rest') := by
    unfold insertCandidates
    rw [hb, hd]
  simp only [insertRun]
  rw [if_neg (by rw [hcr users]; exact Bool.false_ne_true),
    if_neg (by rw [hcr users']; exact Bool.false_ne_true), hd, hc2]

/-- Witness for C10: a tail record pointing at a nonexistent creator id does
not disturb the run when the first record has no createdById; the outcome
even ignores the user table entirely. -/
theorem claim_c10_witness :
    insertRun ⟨[], ["u1"]⟩
        (some (Except.ok (Json.arr
          [Json.obj [("id", Json.str "a")],
           Json.obj [("id", Json.str "b"), ("createdById", Json.str "ghost")]]))) =
      insertRun ⟨[], []⟩
        (some (Except.ok (Json.arr
          [Json.obj [("id", Json.str "a")],
           Json.obj [("id", Json.str "b")]]))) :=
  claim_c10_creator_check_first_only [] ["u1"] []
    (Json.obj [("id", Json.str "a")])
    [Json.obj [("id", Json.str "b"), ("createdById", Json.str "ghost")]]
    [Json.obj [("id", Json.str "b")]]
    (by decide) (by decide)

/-- Appending a final Z keeps a string non-empty. -/
theorem append_z_ne_empty (s : String) : s ++ "Z" ≠ "" := by
  intro h
  have hlen := congrArg String.length h
  rw [String.length_append] at hlen
  have hz : ("Z" : String).length = 1 := by decide
  have h0 : ("" : String).length = 0 := by decide
  rw [hz, h0] at hlen
  omega

/-- An ISO-rendered timestamp is never the empty string. -/
theorem isoOfTime_ne_empty (t : Int) : isoOfTime t ≠ "" := by
  simp only [isoOfTime]
  exact append_z_ne_empty _

/-- Gender survives the enum-to-string-to-enum passage. -/
theorem genderOfString_genderToString (g : Gender) :
    genderOfString (genderToString g) = some g := by
  cases g <;> rfl

/-- C7 counterexample: a pending record whose dob is an Invalid Date (an
unparsable CSV dob) is serialized with dob null, and the runner re-hydrates
null to the epoch, so deserialization does not reproduce the record. -/
theorem claim_c7_counterexample :
    (runnerDecode 0 (serializePatient
        ⟨"id1", "t1", "e@x.com", "John", "Doe", none, Gender.MALE,
         "+15551234567", "u1", none, none, some 0, some 0⟩) ≠
      some ⟨"id1", "t1", "e@x.com", "John", "Doe", none, Gender.MALE,
         "+15551234567", "u1", none, none, some 0, some 0⟩) ∧
    (runnerDecode 0 (serializePatient
        ⟨"id1", "t1", "e@x.com", "John", "Doe", none, Gender.MALE,
         "+15551234567", "u1", none, none, some 0, some 0⟩) =
      some ⟨"id1", "t1", "e@x.com", "John", "Doe", some 0, Gender.MALE,
         "+15551234567", "u1", none, none, some 0, some 0⟩) := by
  constructor
  · decide
  · decide

/-- C7 amended: serialize-then-deserialize is the identity on every pending
record whose dob is a valid date (createdAt and updatedAt always are — the
script sets them to the run clock), granted that the runtime's ISO rendering
of each date parses back to the same timestamp. -/
theorem claim_c7_roundtrip (p : Patient) (now td tc tu : Int)
    (hdob : p.dob = some td)
    (hca : p.createdAt = some tc)
    (hua : p.updatedAt = some tu)
    (hd : timeOfIso (isoOfTime td) = some td)
    (hc : timeOfIso (isoOfTime tc) = some tc)
    (hu : timeOfIso (isoOfTime tu) = some tu) :
    runnerDecode now (serializePatient p) = some p := by
  obtain ⟨id, tenantId, email, firstName, lastName, dob, gender,
    phoneNumber, createdById, ssn, metadata, createdAt, updatedAt⟩ := p
  simp only at hdob hca hua
  subst hdob hca hua
  have hcne := isoOfTime_ne_empty tc
  have hune := isoOfTime_ne_empty tu
  cases ssn <;> cases metadata <;>
    simp [runnerDecode, serializePatient, jsField, jsLookup, decodeStr,
      decodeOptStr, jsNewDate, jsNewDateOr, jsTruthy, serializeDate,
      serializeOptStr, genderOfString_genderToString, hd, hc, hu, hcne, hune]

/-- Witness for C7 at a concrete record with valid dates. -/
theorem claim_c7_witness :
    runnerDecode 5 (serializePatient
        ⟨"id1", "t1", "e@x.com", "John", "Doe", some 642729600000, Gender.FEMALE,
         "+15551234567", "u1", none, none, some 1700000000000, some 1700000000001⟩) =
      some ⟨"id1", "t1", "e@x.com", "John", "Doe", some 642729600000, Gender.FEMALE,
         "+15551234567", "u1", none, none, some 1700000000000, some 1700000000001⟩ :=
  claim_c7_roundtrip _ 5 642729600000 1700000000000 1700000000001
    rfl rfl rfl (by decide) (by decide) (by decide)

end SyncData
